import Mathlib

/-!
Shallow embedding of the ESG-dashboard script src/arnaldo.py.

The script is a pandas/streamlit pipeline: a loader (load_data), a baseline
snapshot of the sidebar filter state (st.session_state.reset), a boolean-mask
filter over the dataframe (df_filtered), a derived emission-intensity column,
four KPI metrics with deltas, nlargest-based leaderboards, and a
groupby (Ano, Regiao) trend aggregation.

Pandas numerics are embedded as the type PFloat: a finite rational, one of the
two infinities, or NaN, with the NumPy semantics the script relies on
(comparisons with NaN are false, division by zero yields a signed infinity or
NaN, sums and means skip NaN, the mean of an empty column is NaN).  Finite
values are exact rationals; binary rounding of IEEE doubles is not modelled,
and every concrete input used below is chosen so that no rounding question
arises.
-/

/-- A pandas/NumPy float value: a finite rational, an infinity, or NaN. -/
inductive PFloat where
  | finite : ℚ → PFloat
  | pinf : PFloat
  | ninf : PFloat
  | nan : PFloat
deriving DecidableEq, Repr

namespace PFloat

/-- Whether the value is NaN (pandas treats exactly these entries as missing). -/
def isNan : PFloat → Bool
  | nan => true
  | _ => false

/-- IEEE comparison x <= y as used by pandas boolean masks: every comparison
involving NaN is false. -/
def le : PFloat → PFloat → Bool
  | nan, _ => false
  | _, nan => false
  | ninf, _ => true
  | _, pinf => true
  | pinf, _ => false
  | finite _, ninf => false
  | finite a, finite b => decide (a ≤ b)

/-- IEEE addition on the embedded values. -/
def add : PFloat → PFloat → PFloat
  | nan, _ => nan
  | _, nan => nan
  | pinf, ninf => nan
  | ninf, pinf => nan
  | pinf, _ => pinf
  | _, pinf => pinf
  | ninf, _ => ninf
  | _, ninf => ninf
  | finite a, finite b => finite (a + b)

/-- IEEE negation. -/
def neg : PFloat → PFloat
  | finite q => finite (-q)
  | pinf => ninf
  | ninf => pinf
  | nan => nan

/-- IEEE subtraction, as in the KPI delta computations of the script. -/
def sub (a b : PFloat) : PFloat := add a (neg b)

/-- NumPy division, as used for Emissao_Carbono / Receita: a nonzero finite
value divided by zero is a signed infinity, 0/0 is NaN. -/
def div : PFloat → PFloat → PFloat
  | nan, _ => nan
  | _, nan => nan
  | pinf, pinf => nan
  | pinf, ninf => nan
  | ninf, pinf => nan
  | ninf, ninf => nan
  | pinf, finite b => if 0 ≤ b then pinf else ninf
  | ninf, finite b => if 0 ≤ b then ninf else pinf
  | finite _, pinf => finite 0
  | finite _, ninf => finite 0
  | finite a, finite b =>
      if b = 0 then
        if a = 0 then nan else if 0 < a then pinf else ninf
      else finite (a / b)

/-- Python truthiness of a float: 0.0 is falsy, every other value (including
NaN and the infinities) is truthy.  The script writes `if delta else None`. -/
def truthy : PFloat → Bool
  | finite q => decide (q ≠ 0)
  | _ => true

/-- pandas Series.sum with the default skipna=True: NaN entries are skipped and
the empty (or all-NaN) column sums to 0. -/
def psum (l : List PFloat) : PFloat :=
  (l.filter (fun x => !x.isNan)).foldl add (finite 0)

/-- pandas Series.mean with the default skipna=True: NaN entries are skipped
and the mean of an empty (or all-NaN) column is NaN. -/
def pmean (l : List PFloat) : PFloat :=
  let v := l.filter (fun x => !x.isNan)
  if v.isEmpty then nan else div (v.foldl add (finite 0)) (finite v.length)

/-- pandas Series.mean of a column that is known to contain no missing value
(ESG_Geral and Receita after load_data's dropna): still NaN when empty. -/
def meanQ (l : List ℚ) : PFloat :=
  if l.isEmpty then nan else finite (l.sum / l.length)

/-- Rank of a value in the descending sort order used by nlargest:
largest values first; NaN ordered after everything (it is dropped before
sorting, the rank only makes the comparator total). -/
def tier : PFloat → ℕ
  | pinf => 0
  | finite _ => 1
  | ninf => 2
  | nan => 3

/-- Total comparator "a may come before b" for the descending, first-occurrence
(keep='first') order of pandas nlargest. -/
def descLeB : PFloat → PFloat → Bool
  | finite x, finite y => decide (y ≤ x)
  | a, b => decide (tier a ≤ tier b)

theorem descLeB_total (a b : PFloat) : descLeB a b = true ∨ descLeB b a = true := by
  cases a <;> cases b <;> simp [descLeB, tier] <;> exact le_total _ _

theorem descLeB_trans {a b c : PFloat} (hab : descLeB a b = true)
    (hbc : descLeB b c = true) : descLeB a c = true := by
  cases a <;> cases b <;> cases c <;>
    simp_all [descLeB, tier] <;> exact le_trans hbc hab

/-- On non-NaN values the nlargest comparator agrees with the IEEE order read
backwards: a before b exactly when b <= a. -/
theorem descLeB_eq_le {a b : PFloat} (ha : a.isNan = false) (hb : b.isNan = false) :
    descLeB a b = le b a := by
  cases a <;> cases b <;> simp_all [descLeB, tier, le, isNan]

end PFloat

/-!
Data model.  A Record is one row of the base table produced by load_data:
after `dropna(subset=['ESG_Geral', 'Receita'])` the ESG_Geral and Receita
entries are guaranteed present (embedded as plain rationals), while
MargemLucro and Emissao_Carbono went through `pd.to_numeric(..,
errors='coerce')` without a dropna and may still be NaN.
-/

/-- One row of the base table (the columns the pipeline reads). -/
structure Record where
  nome : String
  regiao : String
  ano : ℤ
  receita : ℚ
  margem : PFloat
  emissao : PFloat
  esg : ℚ
deriving DecidableEq, Repr

/-- A row of df_filtered: a base row plus the derived Emissao_por_Receita
column added on line 116. -/
structure FRecord extends Record where
  emissaoPorReceita : PFloat
deriving DecidableEq, Repr

/-- The sidebar filter values consumed on lines 104-113: year range, region
multiselect, revenue range and margin range. -/
structure FilterState where
  yearMin : ℤ
  yearMax : ℤ
  regions : List String
  revMin : ℚ
  revMax : ℚ
  marginMin : ℚ
  marginMax : ℚ
deriving DecidableEq, Repr

/-- The boolean mask of lines 105-112, one row at a time, with the conjuncts
in source order: Ano >= lo, Ano <= hi, Regiao isin regions, Receita >= lo,
Receita <= hi, MargemLucro >= lo, MargemLucro <= hi.  The margin comparisons
are IEEE comparisons, so a NaN margin fails the mask. -/
def rowPred (s : FilterState) (r : Record) : Bool :=
  decide (s.yearMin ≤ r.ano) && decide (r.ano ≤ s.yearMax) &&
  decide (r.regiao ∈ s.regions) &&
  decide (s.revMin ≤ r.receita) && decide (r.receita ≤ s.revMax) &&
  PFloat.le (PFloat.finite s.marginMin) r.margem &&
  PFloat.le r.margem (PFloat.finite s.marginMax)

/-- Lines 105-113: df_filtered before the derived column, i.e. the boolean
mask applied to the base table.  Pandas boolean-mask selection keeps the
surviving rows in their original order. -/
def dfFiltered (df : List Record) (s : FilterState) : List Record :=
  df.filter (rowPred s)

/-- Line 116: append the derived column Emissao_por_Receita =
Emissao_Carbono / Receita (NumPy division, so revenue 0 gives inf, -inf or NaN). -/
def addIntensity (r : Record) : FRecord :=
  { r with emissaoPorReceita := PFloat.div r.emissao (PFloat.finite r.receita) }

/-- The filtered view handed to every chart and KPI: df_filtered with its
derived column. -/
def filteredView (df : List Record) (s : FilterState) : List FRecord :=
  (dfFiltered df s).map addIntensity

/-!
KPI block, lines 130-164.  Each KPI computes a value over df_filtered, a delta
against the unfiltered df guarded by `if len(..) != len(..)` or
`if not df_filtered.empty`, and displays the delta only when it is truthy
(`f"..." if delta else None`).
-/

/-- Line 132: company-count delta, None when the lengths agree. -/
def countDelta (view : List FRecord) (base : List Record) : Option ℤ :=
  if view.length ≠ base.length then some ((view.length : ℤ) - base.length) else none

/-- Line 136: the count delta string is passed only when the delta is truthy
(None and 0 are both falsy in Python). -/
def countDeltaShown (view : List FRecord) (base : List Record) : Bool :=
  match countDelta view base with
  | some d => decide (d ≠ 0)
  | none => false

/-- Line 140: avg_esg = df_filtered['ESG_Geral'].mean() (NaN when empty). -/
def avg_esg (view : List FRecord) : PFloat :=
  PFloat.meanQ (view.map (·.esg))

/-- Mean of ESG_Geral over the unfiltered base table (line 141, right operand). -/
def baseEsgMean (base : List Record) : PFloat :=
  PFloat.meanQ (base.map (·.esg))

/-- Line 141: delta_esg, None when df_filtered is empty. -/
def delta_esg (view : List FRecord) (base : List Record) : Option PFloat :=
  if view.isEmpty then none else some (PFloat.sub (avg_esg view) (baseEsgMean base))

/-- Line 145: the ESG delta is displayed only when truthy. -/
def deltaEsgShown (view : List FRecord) (base : List Record) : Bool :=
  match delta_esg view base with
  | some d => d.truthy
  | none => false

/-- Line 149: avg_revenue = df_filtered['Receita'].mean(). -/
def avg_revenue (view : List FRecord) : PFloat :=
  PFloat.meanQ (view.map (·.receita))

/-- Mean of Receita over the unfiltered base table (line 150, right operand). -/
def baseRevenueMean (base : List Record) : PFloat :=
  PFloat.meanQ (base.map (·.receita))

/-- Line 150: delta_revenue, None when df_filtered is empty. -/
def delta_revenue (view : List FRecord) (base : List Record) : Option PFloat :=
  if view.isEmpty then none
  else some (PFloat.sub (avg_revenue view) (baseRevenueMean base))

/-- Line 154: the revenue delta is displayed only when truthy. -/
def deltaRevenueShown (view : List FRecord) (base : List Record) : Bool :=
  match delta_revenue view base with
  | some d => d.truthy
  | none => false

/-- Line 158: total_emissions = df_filtered['Emissao_Carbono'].sum()
(pandas sum: skips NaN, 0 on empty). -/
def total_emissions (view : List FRecord) : PFloat :=
  PFloat.psum (view.map (·.emissao))

/-- Sum of Emissao_Carbono over the unfiltered base table (line 159). -/
def baseEmissionsSum (base : List Record) : PFloat :=
  PFloat.psum (base.map (·.emissao))

/-- Line 159: delta_emissions, None when df_filtered is empty. -/
def delta_emissions (view : List FRecord) (base : List Record) : Option PFloat :=
  if view.isEmpty then none
  else some (PFloat.sub (total_emissions view) (baseEmissionsSum base))

/-- Line 163: the emissions delta is displayed only when truthy. -/
def deltaEmissionsShown (view : List FRecord) (base : List Record) : Bool :=
  match delta_emissions view base with
  | some d => d.truthy
  | none => false

/-- Rendering of a rational by the Python format spec .1f (round to one
decimal place).  Python rounds the underlying double half-to-even; every
concrete value formatted below is far from a half-way point, so plain
rounding is faithful for them. -/
def fmtQ1 (q : ℚ) : String :=
  let n : ℤ := round (10 * q)
  toString (n / 10) ++ "." ++ toString (n % 10)

/-- Line 144, value=f"{avg_esg:.1f}": formatting a pandas float with .1f;
float('nan') formats as the string "nan". -/
def fmtF1 : PFloat → String
  | PFloat.finite q => fmtQ1 q
  | PFloat.pinf => "inf"
  | PFloat.ninf => "-inf"
  | PFloat.nan => "nan"

/-- The string shown as the value of the Media ESG Geral KPI (line 144). -/
def esgValueShown (view : List FRecord) : String :=
  fmtF1 (avg_esg view)

/-!
Ranking selector, lines 167-212.  df_filtered.nlargest(n, col) drops the rows
whose col entry is NaN, orders the rest descending by col with keep='first'
(rows of equal value stay in their original order) and keeps the first n.
-/

/-- Relation "a may come before b" on rows in the nlargest output for a given
metric column. -/
def descBy (m : FRecord → PFloat) (a b : FRecord) : Prop :=
  PFloat.descLeB (m a) (m b) = true

instance (m : FRecord → PFloat) : DecidableRel (descBy m) := fun a b =>
  instDecidableEqBool (PFloat.descLeB (m a) (m b)) true

/-- df.nlargest(n, col): drop the NaN rows of the column, stable-sort the rest
descending by the column, take the first n. -/
def nlargest (n : ℕ) (m : FRecord → PFloat) (rows : List FRecord) : List FRecord :=
  ((rows.filter (fun r => !(m r).isNan)).insertionSort (descBy m)).take n

/-- Line 173: top_esg = df_filtered.nlargest(5, 'ESG_Geral'). -/
def top_esg (view : List FRecord) : List FRecord :=
  nlargest 5 (fun r => PFloat.finite r.esg) view

/-- Line 187: top_emitters = df_filtered.nlargest(5, 'Emissao_Carbono'). -/
def top_emitters (view : List FRecord) : List FRecord :=
  nlargest 5 (fun r => r.emissao) view

/-- Line 201: top_revenue = df_filtered.nlargest(5, 'Receita'). -/
def top_revenue (view : List FRecord) : List FRecord :=
  nlargest 5 (fun r => PFloat.finite r.receita) view

/-!
Trend aggregator, lines 218-223.  groupby(['Ano', 'Regiao']) with the default
sort=True orders the groups by the key tuple ascending; Python compares the
second component, a str, by code points.
-/

/-- Python string comparison s < t: lexicographic on code points (the first
differing character decides; a strict prefix is smaller). -/
def chLt : List Char → List Char → Bool
  | [], [] => false
  | [], _ :: _ => true
  | _ :: _, [] => false
  | a :: as, b :: bs => decide (a < b) || (decide (a = b) && chLt as bs)

theorem chLt_trans : ∀ {a b c : List Char},
    chLt a b = true → chLt b c = true → chLt a c = true
  | [], [], _ => by simp [chLt]
  | [], _ :: _, [] => by simp [chLt]
  | [], _ :: _, _ :: _ => by simp [chLt]
  | _ :: _, [], _ => by simp [chLt]
  | _ :: _, _ :: _, [] => by simp [chLt]
  | a :: as, b :: bs, c :: cs => by
    simp only [chLt, Bool.or_eq_true, Bool.and_eq_true, decide_eq_true_eq]
    rintro (h1 | ⟨rfl, h1⟩) (h2 | ⟨rfl, h2⟩)
    · exact Or.inl (lt_trans h1 h2)
    · exact Or.inl h1
    · exact Or.inl h2
    · exact Or.inr ⟨rfl, chLt_trans h1 h2⟩

theorem chLt_conn : ∀ {a b : List Char},
    chLt a b = false → chLt b a = false → a = b
  | [], [] => by simp
  | [], _ :: _ => by simp [chLt]
  | _ :: _, [] => by simp [chLt]
  | a :: as, b :: bs => by
    simp only [chLt, Bool.or_eq_false_iff, Bool.and_eq_false_iff,
      decide_eq_false_iff_not]
    rintro ⟨hab1, hab2⟩ ⟨hba1, hba2⟩
    have hab : a = b := le_antisymm (not_lt.mp hba1) (not_lt.mp hab1)
    subst hab
    rcases hab2 with h | h
    · exact absurd rfl h
    · rcases hba2 with h2 | h2
      · exact absurd rfl h2
      · rw [chLt_conn h h2]

/-- Python comparison of the groupby key tuples (Ano, Regiao): lexicographic,
int first, then string by code points.  This is the non-strict version used to
sort the group keys. -/
def keyLeB (a b : ℤ × String) : Bool :=
  decide (a.1 < b.1) ||
    (decide (a.1 = b.1) && (chLt a.2.data b.2.data || decide (a.2 = b.2)))

/-- Strict lexicographic order on the (Ano, Regiao) keys: year ascending,
then region name ascending. -/
def keyLtB (a b : ℤ × String) : Bool :=
  decide (a.1 < b.1) || (decide (a.1 = b.1) && chLt a.2.data b.2.data)

theorem keyLeB_total (a b : ℤ × String) : keyLeB a b = true ∨ keyLeB b a = true := by
  simp only [keyLeB, Bool.or_eq_true, Bool.and_eq_true, decide_eq_true_eq]
  rcases lt_trichotomy a.1 b.1 with h | h | h
  · exact Or.inl (Or.inl h)
  · rcases hs : chLt a.2.data b.2.data with hf | ht
    · rcases hs2 : chLt b.2.data a.2.data with hf2 | ht2
      · exact Or.inl (Or.inr ⟨h, Or.inr (String.ext (chLt_conn hs hs2))⟩)
      · exact Or.inr (Or.inr ⟨h.symm, Or.inl rfl⟩)
    · exact Or.inl (Or.inr ⟨h, Or.inl rfl⟩)
  · exact Or.inr (Or.inl h)

theorem keyLeB_trans {a b c : ℤ × String} (hab : keyLeB a b = true)
    (hbc : keyLeB b c = true) : keyLeB a c = true := by
  simp only [keyLeB, Bool.or_eq_true, Bool.and_eq_true, decide_eq_true_eq] at hab hbc ⊢
  rcases hab with h1 | ⟨h1, hs1⟩
  · rcases hbc with h2 | ⟨h2, _⟩
    · exact Or.inl (lt_trans h1 h2)
    · exact Or.inl (h2 ▸ h1)
  · rcases hbc with h2 | ⟨h2, hs2⟩
    · exact Or.inl (h1 ▸ h2)
    · refine Or.inr ⟨h1.trans h2, ?_⟩
      rcases hs1 with hs1 | hs1
      · rcases hs2 with hs2 | hs2
        · exact Or.inl (chLt_trans hs1 hs2)
        · exact Or.inl (hs2 ▸ hs1)
      · rcases hs2 with hs2 | hs2
        · exact Or.inl (hs1 ▸ hs2)
        · exact Or.inr (hs1.trans hs2)

/-- A non-strict key comparison between distinct keys is strict. -/
theorem keyLtB_of_keyLeB_ne {a b : ℤ × String} (h : keyLeB a b = true)
    (hne : a ≠ b) : keyLtB a b = true := by
  simp only [keyLeB, Bool.or_eq_true, Bool.and_eq_true, decide_eq_true_eq] at h
  simp only [keyLtB, Bool.or_eq_true, Bool.and_eq_true, decide_eq_true_eq]
  rcases h with h | ⟨h1, hs | hs⟩
  · exact Or.inl h
  · exact Or.inr ⟨h1, hs⟩
  · exact absurd (Prod.ext h1 hs) hne

/-- Grouping key of a row of the filtered view: the (Ano, Regiao) pair. -/
def keyOf (r : FRecord) : ℤ × String := (r.ano, r.regiao)

/-- One output row of the trend aggregation: the group key and the four
aggregated statistics of lines 218-223. -/
structure AggRow where
  ano : ℤ
  regiao : String
  esgMean : PFloat
  receitaMean : PFloat
  emissaoSum : PFloat
  intensMean : PFloat
deriving DecidableEq, Repr

/-- The rows of the view belonging to one (Ano, Regiao) group. -/
def groupRows (view : List FRecord) (k : ℤ × String) : List FRecord :=
  view.filter (fun r => keyOf r = k)

/-- The statistics of one (Ano, Regiao) group: mean ESG_Geral, mean Receita,
summed Emissao_Carbono, mean Emissao_por_Receita (pandas aggregation, so NaN
entries are skipped inside each group). -/
def aggOf (view : List FRecord) (k : ℤ × String) : AggRow :=
  { ano := k.1
    regiao := k.2
    esgMean := PFloat.meanQ ((groupRows view k).map (·.esg))
    receitaMean := PFloat.meanQ ((groupRows view k).map (·.receita))
    emissaoSum := PFloat.psum ((groupRows view k).map (·.emissao))
    intensMean := PFloat.pmean ((groupRows view k).map (·.emissaoPorReceita)) }

/-- The sorted list of distinct (Ano, Regiao) keys occurring in the view:
pandas groupby with the default sort=True orders the groups by the key tuple
ascending and produces one group per distinct key present. -/
def trendKeys (view : List FRecord) : List (ℤ × String) :=
  ((view.map keyOf).dedup).insertionSort (fun a b => keyLeB a b = true)

/-- Lines 218-223: df_trend = df_filtered.groupby(['Ano', 'Regiao']).agg(...)
followed by reset_index(). -/
def df_trend (view : List FRecord) : List AggRow :=
  (trendKeys view).map (aggOf view)

/-- What the first main tab renders, lines 258-263: the charts when
df_filtered has rows, otherwise the warning banner. -/
inductive Tab1Output where
  | charts : Tab1Output
  | warning : String → Tab1Output
deriving DecidableEq, Repr

/-- Lines 258-263: `if not df_filtered.empty: ... else: st.warning(...)`. -/
def tab1Render (view : List FRecord) : Tab1Output :=
  if view.isEmpty then
    Tab1Output.warning "Nenhum dado encontrado com os filtros atuais."
  else Tab1Output.charts

/-!
Dataset loader, lines 30-42, and the baseline snapshot, lines 47-53.
-/

/-- A raw spreadsheet row before cleaning: Receita, MargemLucro and
Emissao_Carbono pass through pd.to_numeric(errors='coerce'), so a non-numeric
cell becomes missing; ESG_Geral is used as read and may be missing. -/
structure RawRecord where
  nome : String
  regiao : String
  ano : ℤ
  receita : Option ℚ
  margem : Option ℚ
  emissao : Option ℚ
  esg : Option ℚ
deriving DecidableEq, Repr

/-- A missing numeric entry is NaN in the dataframe. -/
def optF : Option ℚ → PFloat
  | some q => PFloat.finite q
  | none => PFloat.nan

/-- Cleaning of one raw row, lines 35-39: coerce the numeric columns and keep
the row only when both ESG_Geral and Receita are present
(dropna(subset=['ESG_Geral', 'Receita'])). -/
def coerceRow (r : RawRecord) : Option Record :=
  match r.esg, r.receita with
  | some e, some rev =>
      some { nome := r.nome, regiao := r.regiao, ano := r.ano, receita := rev,
             margem := optF r.margem, emissao := optF r.emissao, esg := e }
  | _, _ => none

/-- A pandas dataframe as the rest of the script sees it: its rows, plus
whether the ESG schema columns exist at all.  pd.DataFrame() - the value
load_data returns on failure - has no columns, so indexing any column of it
raises KeyError. -/
structure PandasDF where
  hasEsgSchema : Bool
  rows : List Record
deriving DecidableEq, Repr

/-- Lines 30-42: load_data.  The argument is the outcome of reading and
casting the spreadsheet (pd.read_excel plus astype(int), the steps that can
raise).  On success the cleaned table is returned; on any exception the except
branch shows st.error and returns the empty, column-less pd.DataFrame(). -/
def load_data (readResult : Except String (List RawRecord)) :
    PandasDF × Option String :=
  match readResult with
  | Except.ok raws => ({ hasEsgSchema := true, rows := raws.filterMap coerceRow }, none)
  | Except.error e =>
      ({ hasEsgSchema := false, rows := [] },
       some ("Erro ao carregar dados: " ++ e))

/-- The baseline snapshot stored as st.session_state.reset, lines 48-53.
The bounds are Options because pandas min/max of an empty column is NaN. -/
structure ResetDict where
  yearRange : Option ℤ × Option ℤ
  regions : List String
  revenueRange : Option ℚ × Option ℚ
  marginRange : Option ℚ × Option ℚ
deriving DecidableEq, Repr

/-- Margin entries may be NaN; pandas min/max skip NaN, so the bound is the
minimum of the finite entries (NaN when none). -/
def finitePartsQ (l : List PFloat) : List ℚ :=
  l.filterMap (fun x => match x with | PFloat.finite q => some q | _ => none)

/-- Lines 47-53: building st.session_state.reset from the loaded dataframe.
Every expression indexes a column (df['Ano'], df['Regiao'], ...), which raises
KeyError on the column-less empty frame load_data returns after a failure;
that exception is not caught anywhere. -/
def initResetDict (df : PandasDF) : Except String ResetDict :=
  if df.hasEsgSchema then
    Except.ok
      { yearRange := ((df.rows.map (·.ano)).min?, (df.rows.map (·.ano)).max?)
        regions :=
          ((df.rows.map (·.regiao)).dedup).insertionSort
            (fun a b => (chLt a.data b.data || decide (a = b)) = true)
        revenueRange := ((df.rows.map (·.receita)).min?, (df.rows.map (·.receita)).max?)
        marginRange := ((finitePartsQ (df.rows.map (·.margem))).min?,
                        (finitePartsQ (df.rows.map (·.margem))).max?) }
  else Except.error "KeyError: Ano"

/-!
Session-state model for the reset button, lines 47-53 and 61-64.  Python
assignment binds names to objects; st.session_state and the reset dict hold
references into a heap of objects.  The reset button runs
`st.session_state[key] = st.session_state.reset[key]`, copying references,
not objects.  Tuples (the three range values) are immutable; the regions
value is a Python list and can be mutated in place.
-/

/-- A Python object stored in the session heap: one of the three range tuples
or the regions list. -/
inductive PyObj where
  | intPair : ℤ → ℤ → PyObj
  | ratPair : ℚ → ℚ → PyObj
  | strList : List String → PyObj
deriving DecidableEq, Repr

/-- The four sidebar filter keys. -/
inductive FKey where
  | yearK | regionsK | revK | marginK
deriving DecidableEq, Repr

/-- The streamlit session: a heap of Python objects, the addresses held by the
baseline dict st.session_state.reset, and the addresses held by the live
widget keys. -/
structure Session where
  heap : List PyObj
  resetYear : ℕ
  resetRegions : ℕ
  resetRev : ℕ
  resetMargin : ℕ
  liveYear : ℕ
  liveRegions : ℕ
  liveRev : ℕ
  liveMargin : ℕ
deriving DecidableEq, Repr

/-- Dereference an address in the session heap. -/
def readObj (s : Session) (a : ℕ) : Option PyObj := s.heap.get? a

/-- Lines 47-53 on the first run: allocate the four baseline objects and store
their references in st.session_state.reset; the live keys start out reading
the same objects (the widgets default to the baseline values). -/
def initSession (yr : ℤ × ℤ) (regs : List String) (rev mar : ℚ × ℚ) : Session :=
  { heap := [PyObj.intPair yr.1 yr.2, PyObj.strList regs,
             PyObj.ratPair rev.1 rev.2, PyObj.ratPair mar.1 mar.2]
    resetYear := 0, resetRegions := 1, resetRev := 2, resetMargin := 3
    liveYear := 0, liveRegions := 1, liveRev := 2, liveMargin := 3 }

/-- A widget interaction: the key is rebound to a freshly allocated object
(streamlit replaces the session value, it never mutates it in place). -/
def updateLive (s : Session) (k : FKey) (v : PyObj) : Session :=
  let a := s.heap.length
  let s2 := { s with heap := s.heap ++ [v] }
  match k with
  | FKey.yearK => { s2 with liveYear := a }
  | FKey.regionsK => { s2 with liveRegions := a }
  | FKey.revK => { s2 with liveRev := a }
  | FKey.marginK => { s2 with liveMargin := a }

/-- A sequence of widget interactions. -/
def applyUpdates (s : Session) (upds : List (FKey × PyObj)) : Session :=
  upds.foldl (fun st u => updateLive st u.1 u.2) s

/-- Lines 61-64: the reset button.  For each key of st.session_state.reset it
assigns `st.session_state[key] = st.session_state.reset[key]` - a reference
assignment, the baseline object itself, not a copy. -/
def pressReset (s : Session) : Session :=
  { s with liveYear := s.resetYear, liveRegions := s.resetRegions,
           liveRev := s.resetRev, liveMargin := s.resetMargin }

/-- An in-place mutation of the live regions value (Python list.append through
the live binding).  Not performed by the script itself; it is the mutation the
fresh-copy guarantee of the spec quantifies over. -/
def appendLiveRegions (s : Session) (x : String) : Session :=
  match s.heap.get? s.liveRegions with
  | some (PyObj.strList l) =>
      { s with heap := s.heap.set s.liveRegions (PyObj.strList (l ++ [x])) }
  | _ => s

/-!
Concrete fixtures.  exBase/exState is the worked example of the spec (margins
and emissions are not specified there and are set to 0); the other fixtures
exercise a zero-revenue row, a tied-ESG pair, and a NaN emission cell.
-/

/-- (Acme, NA, 2020, rev=100, esg=50). -/
def acme2020 : Record := ⟨"Acme", "NA", 2020, 100, .finite 0, .finite 0, 50⟩

/-- (Beta, EU, 2020, rev=200, esg=80). -/
def beta2020 : Record := ⟨"Beta", "EU", 2020, 200, .finite 0, .finite 0, 80⟩

/-- (Acme, NA, 2021, rev=150, esg=60). -/
def acme2021 : Record := ⟨"Acme", "NA", 2021, 150, .finite 0, .finite 0, 60⟩

/-- The three-record base table of the spec example. -/
def exBase : List Record := [acme2020, beta2020, acme2021]

/-- The spec example's filter: years 2020-2021, regions NA and EU,
revenue 0-1000, margin -100-100. -/
def exState : FilterState := ⟨2020, 2021, ["NA", "EU"], 0, 1000, -100, 100⟩

/-- The same filter with the region multiselect emptied. -/
def exNoRegionState : FilterState := ⟨2020, 2021, [], 0, 1000, -100, 100⟩

/-- A record with revenue exactly 0 and positive emissions. -/
def zedRec : Record := ⟨"Zed", "NA", 2020, 0, .finite 0, .finite 100, 50⟩

/-- One-record base table around zedRec. -/
def exBase3 : List Record := [zedRec]

/-- A filter every fixture row passes. -/
def passAllState : FilterState := ⟨2019, 2022, ["NA", "EU"], 0, 1000, -100, 100⟩

/-- Two records with the same ESG score in different years. -/
def gammaRec : Record := ⟨"Gamma", "NA", 2020, 100, .finite 0, .finite 10, 50⟩

/-- Second record of the tied-ESG pair. -/
def deltaRec : Record := ⟨"Delta", "NA", 2021, 100, .finite 0, .finite 10, 50⟩

/-- Base table for the zero-delta counterexample. -/
def exBase6 : List Record := [gammaRec, deltaRec]

/-- Keeps only the year 2020, so only gammaRec survives. -/
def exState6 : FilterState := ⟨2020, 2020, ["NA"], 0, 1000, -100, 100⟩

/-- A record with a well-formed emission entry. -/
def epsRec : Record := ⟨"Eps", "NA", 2020, 100, .finite 0, .finite 5, 50⟩

/-- A record whose Emissao_Carbono cell was non-numeric, hence NaN after
pd.to_numeric(errors='coerce') (it survives dropna, which only checks
ESG_Geral and Receita). -/
def zetaRec : Record := ⟨"Zeta", "NA", 2020, 100, .finite 0, .nan, 50⟩

/-- Base table containing the NaN-emission row. -/
def exBase7 : List Record := [epsRec, zetaRec]

/-!
Claims.
-/

/-- The per-record filter predicate exactly as the spec words it: year in
[year_min, year_max], region in the region set, revenue in [rev_min, rev_max],
margin in [margin_min, margin_max], all four AND-combined.  Spec-side
definition, compared below with the mask rowPred taken from the code. -/
def specFilterPred (s : FilterState) (r : Record) : Prop :=
  (s.yearMin ≤ r.ano ∧ r.ano ≤ s.yearMax) ∧
  r.regiao ∈ s.regions ∧
  (s.revMin ≤ r.receita ∧ r.receita ≤ s.revMax) ∧
  (PFloat.le (PFloat.finite s.marginMin) r.margem = true ∧
   PFloat.le r.margem (PFloat.finite s.marginMax) = true)

instance (s : FilterState) (r : Record) : Decidable (specFilterPred s r) := by
  unfold specFilterPred
  infer_instance

theorem rowPred_iff_specFilterPred (s : FilterState) (r : Record) :
    rowPred s r = true ↔ specFilterPred s r := by
  simp [rowPred, specFilterPred, and_assoc]

theorem rowPred_eq_decide (s : FilterState) (r : Record) :
    rowPred s r = decide (specFilterPred s r) := by
  by_cases h : specFilterPred s r
  · rw [(rowPred_iff_specFilterPred s r).mpr h]
    simp [h]
  · have hrp : rowPred s r = false :=
      Bool.eq_false_iff.mpr (fun hh => h ((rowPred_iff_specFilterPred s r).mp hh))
    rw [hrp]
    simp [h]

/-- C4: the filtered view is exactly the subsequence of base-table records
satisfying the four AND-combined range/membership conditions, in the base
table's original order (and the view rows are these records with the derived
column attached). -/
theorem filter_engine_correct (df : List Record) (s : FilterState) :
    dfFiltered df s = df.filter (fun r => decide (specFilterPred s r)) ∧
    List.Sublist (dfFiltered df s) df ∧
    (∀ r : Record, r ∈ dfFiltered df s ↔ r ∈ df ∧ specFilterPred s r) ∧
    (filteredView df s).map FRecord.toRecord = dfFiltered df s := by
  refine ⟨List.filter_congr (fun r _ => rowPred_eq_decide s r),
    List.filter_sublist df, fun r => ?_, ?_⟩
  · rw [dfFiltered, List.mem_filter, rowPred_iff_specFilterPred]
  · show ((dfFiltered df s).map addIntensity).map FRecord.toRecord = dfFiltered df s
    rw [List.map_map]
    exact List.map_id _

/-- C10: an empty region multiselect filters out every record (the isin
conjunct is false), and the empty view reaches the same warning branch as any
other empty result. -/
theorem empty_regions_empty_view (df : List Record) (ymin ymax : ℤ)
    (rmin rmax mmin mmax : ℚ) :
    dfFiltered df ⟨ymin, ymax, [], rmin, rmax, mmin, mmax⟩ = [] ∧
    filteredView df ⟨ymin, ymax, [], rmin, rmax, mmin, mmax⟩ = [] ∧
    tab1Render (filteredView df ⟨ymin, ymax, [], rmin, rmax, mmin, mmax⟩)
      = Tab1Output.warning "Nenhum dado encontrado com os filtros atuais." := by
  have h : dfFiltered df ⟨ymin, ymax, [], rmin, rmax, mmin, mmax⟩ = [] := by
    refine List.filter_eq_nil_iff.mpr ?_
    intro r _
    simp [rowPred]
  refine ⟨h, ?_, ?_⟩ <;> simp [filteredView, tab1Render, h]

/-- C1 (amended): on an empty filtered view the mean KPIs evaluate to NaN and
are displayed as the string "nan" (not as a "no data" message), while the
delta computations are guarded by the emptiness check and stay None, so no
NaN reaches a delta. -/
theorem empty_view_kpis (base : List Record) :
    avg_esg [] = PFloat.nan ∧
    esgValueShown [] = "nan" ∧
    avg_revenue [] = PFloat.nan ∧
    total_emissions [] = PFloat.finite 0 ∧
    delta_esg [] base = none ∧
    delta_revenue [] base = none ∧
    delta_emissions [] base = none ∧
    deltaEsgShown [] base = false ∧
    deltaRevenueShown [] base = false ∧
    deltaEmissionsShown [] base = false := by
  refine ⟨rfl, rfl, rfl, rfl, rfl, rfl, rfl, rfl, rfl, rfl⟩

/-- C1 is false as stated: on a concrete empty view (all regions deselected
over the spec's own example table) the mean-ESG KPI value is NaN and is
surfaced as the string "nan", a numeric artifact, not as "no data". -/
theorem empty_view_mean_is_nan :
    filteredView exBase exNoRegionState = [] ∧
    avg_esg (filteredView exBase exNoRegionState) = PFloat.nan ∧
    esgValueShown (filteredView exBase exNoRegionState) = "nan" ∧
    esgValueShown (filteredView exBase exNoRegionState) ≠ "no data" := by
  refine ⟨by decide, by decide, by decide, by decide⟩

/-- C3 (amended): for a record with revenue 0 the derived intensity is NaN
only when the emission entry is 0; a nonzero emission yields a signed
infinity, a numeric value.  Group aggregation (pandas mean/sum) does skip NaN
entries. -/
theorem zero_revenue_intensity (nome regiao : String) (ano : ℤ)
    (margem : PFloat) (emissao esg : ℚ) (l : List PFloat) :
    (addIntensity ⟨nome, regiao, ano, 0, margem, PFloat.finite emissao, esg⟩).emissaoPorReceita
      = (if emissao = 0 then PFloat.nan
         else if 0 < emissao then PFloat.pinf else PFloat.ninf) ∧
    PFloat.pmean (PFloat.nan :: l) = PFloat.pmean l ∧
    PFloat.psum (PFloat.nan :: l) = PFloat.psum l := by
  refine ⟨?_, ?_, ?_⟩
  · by_cases h : emissao = 0
    · simp [addIntensity, PFloat.div, h]
    · by_cases h2 : 0 < emissao <;> simp [addIntensity, PFloat.div, h, h2]
  · simp [PFloat.pmean, PFloat.isNan, List.filter]
  · simp [PFloat.psum, PFloat.isNan, List.filter]

/-- C3 is false as stated: a concrete record with revenue 0 and emissions 100
gets intensity +inf - a numeric value, not an undefined marker - and that
infinity propagates into the per-(year, region) mean of the trend table
instead of being skipped. -/
theorem zero_revenue_intensity_is_inf :
    (filteredView exBase3 passAllState).map (·.emissaoPorReceita) = [PFloat.pinf] ∧
    (df_trend (filteredView exBase3 passAllState)).map (·.intensMean) = [PFloat.pinf] ∧
    PFloat.isNan PFloat.pinf = false := by
  refine ⟨by decide, by decide, rfl⟩

theorem foldl_add_finite : ∀ (l : List PFloat) (acc : ℚ),
    (∀ x ∈ l, ∃ qx : ℚ, x = PFloat.finite qx) →
    ∃ q : ℚ, l.foldl PFloat.add (PFloat.finite acc) = PFloat.finite q
  | [], acc, _ => ⟨acc, rfl⟩
  | x :: xs, acc, h => by
    obtain ⟨qx, rfl⟩ := h x (List.mem_cons_self x xs)
    simpa [PFloat.add] using
      foldl_add_finite xs (acc + qx) (fun y hy => h y (List.mem_cons_of_mem _ hy))

/-- A pandas sum over a column without infinities is a finite value. -/
theorem psum_finite (l : List PFloat)
    (h : ∀ x ∈ l, x ≠ PFloat.pinf ∧ x ≠ PFloat.ninf) :
    ∃ q : ℚ, PFloat.psum l = PFloat.finite q := by
  refine foldl_add_finite _ 0 ?_
  intro x hx
  have hmem := List.mem_of_mem_filter hx
  have hnan := List.of_mem_filter hx
  rcases x with q | _ | _ | _
  · exact ⟨q, rfl⟩
  · exact absurd rfl (h _ hmem).1
  · exact absurd rfl (h _ hmem).2
  · simp [PFloat.isNan] at hnan

theorem sub_self_finite (q : ℚ) :
    PFloat.sub (PFloat.finite q) (PFloat.finite q) = PFloat.finite 0 := by
  simp [PFloat.sub, PFloat.add, PFloat.neg]

/-- C6 (amended): a KPI delta is never displayed when the view equals the
base table, and a displayed delta implies the view differs; but only the
count delta is displayed exactly when view and base differ - the mean and sum
deltas are additionally suppressed whenever their value is exactly 0 or the
view is empty. -/
theorem kpi_delta_display (df : List Record) (s : FilterState)
    (hfin : ∀ r ∈ df, r.emissao ≠ PFloat.pinf ∧ r.emissao ≠ PFloat.ninf) :
    (countDeltaShown (filteredView df s) df = true ↔ dfFiltered df s ≠ df) ∧
    (dfFiltered df s = df →
      deltaEsgShown (filteredView df s) df = false ∧
      deltaRevenueShown (filteredView df s) df = false ∧
      deltaEmissionsShown (filteredView df s) df = false) ∧
    (deltaEsgShown (filteredView df s) df = true → dfFiltered df s ≠ df) ∧
    (deltaRevenueShown (filteredView df s) df = true → dfFiltered df s ≠ df) ∧
    (deltaEmissionsShown (filteredView df s) df = true → dfFiltered df s ≠ df) := by
  have hlen : (filteredView df s).length = (dfFiltered df s).length :=
    List.length_map _ _
  have hsub : List.Sublist (dfFiltered df s) df := List.filter_sublist df
  have hcount : countDeltaShown (filteredView df s) df = true ↔ dfFiltered df s ≠ df := by
    constructor
    · intro hshow hEq
      unfold countDeltaShown countDelta at hshow
      rw [hlen, hEq] at hshow
      simp at hshow
    · intro hne
      have hlt : (dfFiltered df s).length ≠ df.length := by
        intro hl
        exact hne (hsub.eq_of_length hl)
      unfold countDeltaShown countDelta
      rw [hlen]
      simp only [ne_eq, hlt, not_false_iff, if_true]
      simp only [decide_eq_true_eq]
      omega
  have hmain : dfFiltered df s = df →
      deltaEsgShown (filteredView df s) df = false ∧
      deltaRevenueShown (filteredView df s) df = false ∧
      deltaEmissionsShown (filteredView df s) df = false := by
    intro hEq
    rcases hdf : df with _ | ⟨r, rest⟩
    · subst hdf
      simp [deltaEsgShown, deltaRevenueShown, deltaEmissionsShown,
        delta_esg, delta_revenue, delta_emissions, filteredView, dfFiltered]
    · rw [← hdf]
      have hview : filteredView df s = df.map addIntensity := by
        simp [filteredView, hEq]
      have hviewNe : (filteredView df s).isEmpty = false := by
        rw [hview, hdf]
        rfl
      have hesg : (filteredView df s).map (·.esg) = df.map (·.esg) := by
        rw [hview, List.map_map]
        rfl
      have hrec : (filteredView df s).map (·.receita) = df.map (·.receita) := by
        rw [hview, List.map_map]
        rfl
      have hemi : (filteredView df s).map (·.emissao) = df.map (·.emissao) := by
        rw [hview, List.map_map]
        rfl
      have hQne : (df.map (·.esg)).isEmpty = false := by
        rw [hdf]
        rfl
      have hQne2 : (df.map (·.receita)).isEmpty = false := by
        rw [hdf]
        rfl
      obtain ⟨t, ht⟩ := psum_finite (df.map (·.emissao)) (by
        intro x hx
        obtain ⟨rr, hrr, rfl⟩ := List.mem_map.mp hx
        exact hfin rr hrr)
      refine ⟨?_, ?_, ?_⟩
      · simp [deltaEsgShown, delta_esg, hviewNe, avg_esg, baseEsgMean, hesg,
          PFloat.meanQ, hQne, sub_self_finite, PFloat.truthy]
      · simp [deltaRevenueShown, delta_revenue, hviewNe, avg_revenue,
          baseRevenueMean, hrec, PFloat.meanQ, hQne2, sub_self_finite, PFloat.truthy]
      · simp [deltaEmissionsShown, delta_emissions, hviewNe, total_emissions,
          baseEmissionsSum, hemi, ht, sub_self_finite, PFloat.truthy]
  refine ⟨hcount, hmain, ?_, ?_, ?_⟩ <;>
    · intro hs hEq
      rcases hmain hEq with ⟨h1, h2, h3⟩
      simp_all

/-- Witness for kpi_delta_display at the spec's example table with the
pass-everything filter: the view equals the base table and no delta is shown. -/
theorem kpi_delta_display_witness :
    deltaEsgShown (filteredView exBase exState) exBase = false ∧
    deltaRevenueShown (filteredView exBase exState) exBase = false ∧
    countDeltaShown (filteredView exBase exState) exBase = false := by
  have h := kpi_delta_display exBase exState (by decide)
  have hEq : dfFiltered exBase exState = exBase := by decide
  refine ⟨(h.2.1 hEq).1, (h.2.1 hEq).2.1, ?_⟩
  by_cases hc : countDeltaShown (filteredView exBase exState) exBase = true
  · exact absurd hEq (h.1.mp hc)
  · simpa using hc

/-- C6 is false as stated: with two records of equal ESG score and a filter
keeping only one of them, the view differs from the base table yet the
mean-ESG delta is exactly 0 and is suppressed rather than displayed. -/
theorem zero_delta_suppressed :
    dfFiltered exBase6 exState6 ≠ exBase6 ∧
    delta_esg (filteredView exBase6 exState6) exBase6 = some (PFloat.finite 0) ∧
    deltaEsgShown (filteredView exBase6 exState6) exBase6 = false := by
  have hv : filteredView exBase6 exState6 = [addIntensity gammaRec] := rfl
  have hd : delta_esg (filteredView exBase6 exState6) exBase6
      = some (PFloat.finite 0) := by
    simp only [delta_esg, hv]
    norm_num [avg_esg, baseEsgMean, PFloat.meanQ, exBase6, gammaRec, deltaRec,
      addIntensity, PFloat.sub, PFloat.neg, PFloat.add]
  refine ⟨by decide, hd, ?_⟩
  simp [deltaEsgShown, hd, PFloat.truthy]

theorem PFloat.descLeB_refl (a : PFloat) : PFloat.descLeB a a = true := by
  cases a <;> simp [PFloat.descLeB, PFloat.tier]

/-- C7 (amended): the nlargest output is sorted descending by the metric
(IEEE order on the non-NaN entries), rows of equal metric keep their original
relative order, and the length is min(n, number of rows whose metric entry is
not NaN): rows with a NaN metric are dropped, so the length can fall short of
min(n, len(view)).  For the ESG and revenue metrics, whose columns are
NaN-free after load_data's dropna, the two coincide. -/
theorem nlargest_spec (view : List FRecord) (m : FRecord → PFloat) (n : ℕ) :
    List.Pairwise (fun a b => PFloat.le (m b) (m a) = true) (nlargest n m view) ∧
    (∀ v : PFloat, List.Sublist
        ((nlargest n m view).filter (fun r => m r = v))
        (view.filter (fun r => m r = v))) ∧
    (nlargest n m view).length
      = min n (view.filter (fun r => !(m r).isNan)).length := by
  haveI hTot : IsTotal FRecord (descBy m) :=
    ⟨fun a b => PFloat.descLeB_total (m a) (m b)⟩
  haveI hTrans : IsTrans FRecord (descBy m) :=
    ⟨fun _ _ _ hab hbc => PFloat.descLeB_trans hab hbc⟩
  have hsorted : List.Pairwise (descBy m)
      ((view.filter (fun r => !(m r).isNan)).insertionSort (descBy m)) :=
    List.sorted_insertionSort _ _
  have hmemNonNan : ∀ r ∈ (view.filter (fun r => !(m r).isNan)).insertionSort (descBy m),
      (m r).isNan = false := by
    intro r hr
    have h := List.of_mem_filter ((List.mem_insertionSort _).mp hr)
    simpa using h
  have htake : List.Sublist (nlargest n m view)
      ((view.filter (fun r => !(m r).isNan)).insertionSort (descBy m)) :=
    List.take_sublist _ _
  refine ⟨?_, ?_, ?_⟩
  · have hp : List.Pairwise (descBy m) (nlargest n m view) :=
      List.Pairwise.sublist htake hsorted
    refine List.Pairwise.imp_of_mem ?_ hp
    intro a b ha hb hd
    have hna : (m a).isNan = false := hmemNonNan _ (htake.subset ha)
    have hnb : (m b).isNan = false := hmemNonNan _ (htake.subset hb)
    have hd2 : PFloat.descLeB (m a) (m b) = true := hd
    rw [PFloat.descLeB_eq_le hna hnb] at hd2
    exact hd2
  · intro v
    by_cases hv : v.isNan = true
    · have hnil : (nlargest n m view).filter (fun r => m r = v) = [] := by
        refine List.filter_eq_nil_iff.mpr ?_
        intro r hr
        have hna : (m r).isNan = false := hmemNonNan _ (htake.subset hr)
        simp only [decide_eq_true_eq]
        intro hrv
        rw [hrv] at hna
        rw [hv] at hna
        cases hna
      rw [hnil]
      exact List.nil_sublist _
    · have hcPair : List.Pairwise (descBy m)
          ((view.filter (fun r => !(m r).isNan)).filter (fun r => m r = v)) := by
        refine List.pairwise_of_forall_mem_list ?_
        intro a ha b hb
        have hma : m a = v := by simpa using List.of_mem_filter ha
        have hmb : m b = v := by simpa using List.of_mem_filter hb
        show PFloat.descLeB (m a) (m b) = true
        rw [hma, hmb]
        exact PFloat.descLeB_refl v
      have hcS : List.Sublist
          ((view.filter (fun r => !(m r).isNan)).filter (fun r => m r = v))
          ((view.filter (fun r => !(m r).isNan)).insertionSort (descBy m)) :=
        List.sublist_insertionSort hcPair (List.filter_sublist _)
      have hperm : List.Perm
          (((view.filter (fun r => !(m r).isNan)).insertionSort (descBy m)).filter
            (fun r => m r = v))
          ((view.filter (fun r => !(m r).isNan)).filter (fun r => m r = v)) :=
        (List.perm_insertionSort (descBy m) _).filter _
      have hcf : ((view.filter (fun r => !(m r).isNan)).filter (fun r => m r = v)).filter
            (fun r => m r = v)
          = (view.filter (fun r => !(m r).isNan)).filter (fun r => m r = v) := by
        refine List.filter_eq_self.mpr ?_
        intro a ha
        simpa using List.of_mem_filter ha
      have hcS2 : List.Sublist
          ((view.filter (fun r => !(m r).isNan)).filter (fun r => m r = v))
          (((view.filter (fun r => !(m r).isNan)).insertionSort (descBy m)).filter
            (fun r => m r = v)) := by
        rw [← hcf]
        exact List.Sublist.filter _ hcS
      have hEq : ((view.filter (fun r => !(m r).isNan)).insertionSort (descBy m)).filter
            (fun r => m r = v)
          = (view.filter (fun r => !(m r).isNan)).filter (fun r => m r = v) :=
        (hcS2.eq_of_length hperm.length_eq.symm).symm
      have h1 : List.Sublist ((nlargest n m view).filter (fun r => m r = v))
          (((view.filter (fun r => !(m r).isNan)).insertionSort (descBy m)).filter
            (fun r => m r = v)) :=
        List.Sublist.filter _ htake
      have h2 : List.Sublist
          ((view.filter (fun r => !(m r).isNan)).filter (fun r => m r = v))
          (view.filter (fun r => m r = v)) := by
        have hcomm : view.filter (fun a => decide (m a = v) && !(m a).isNan)
            = view.filter (fun a => !(m a).isNan && decide (m a = v)) :=
          List.filter_congr (fun x _ => Bool.and_comm _ _)
        rw [List.filter_filter, hcomm, ← List.filter_filter]
        exact List.filter_sublist _
      exact (hEq ▸ h1).trans h2
  · show ((((view.filter (fun r => !(m r).isNan)).insertionSort (descBy m)).take n)).length
        = min n (view.filter (fun r => !(m r).isNan)).length
    rw [List.length_take, List.length_insertionSort]

/-- C7 is false as stated: a view containing a row whose Emissao_Carbono cell
is NaN yields a top-emitters list shorter than min(n, len(view)) - nlargest
drops the NaN row. -/
theorem nan_emission_dropped_from_top :
    (top_emitters (filteredView exBase7 passAllState)).length = 1 ∧
    (filteredView exBase7 passAllState).length = 2 ∧
    (top_emitters (filteredView exBase7 passAllState)).length
      ≠ min 5 (filteredView exBase7 passAllState).length := by
  refine ⟨rfl, rfl, by decide⟩

/-- C8: the trend table has exactly one row per distinct (Ano, Regiao) pair
present in the view - pairs not present produce no row (sparse, no
zero-filling) - and the rows are strictly ordered by year ascending, then
region name ascending. -/
theorem trend_groups (view : List FRecord) :
    List.Pairwise (fun k1 k2 => keyLtB k1 k2 = true)
      ((df_trend view).map (fun a => (a.ano, a.regiao))) ∧
    (∀ k : ℤ × String,
      k ∈ (df_trend view).map (fun a => (a.ano, a.regiao)) ↔ k ∈ view.map keyOf) := by
  have hmap : (df_trend view).map (fun a => (a.ano, a.regiao)) = trendKeys view := by
    rw [df_trend, List.map_map]
    exact List.map_id _
  haveI : IsTotal (ℤ × String) (fun a b => keyLeB a b = true) := ⟨keyLeB_total⟩
  haveI : IsTrans (ℤ × String) (fun a b => keyLeB a b = true) :=
    ⟨fun _ _ _ => keyLeB_trans⟩
  have hsorted : List.Pairwise (fun a b => keyLeB a b = true) (trendKeys view) :=
    List.sorted_insertionSort _ _
  have hnodup : (trendKeys view).Nodup :=
    ((List.perm_insertionSort _ _).nodup_iff).mpr (List.nodup_dedup _)
  have hlt : List.Pairwise (fun k1 k2 => keyLtB k1 k2 = true) (trendKeys view) := by
    have hand := List.Pairwise.and hsorted hnodup
    refine hand.imp ?_
    rintro a b ⟨hle, hne⟩
    exact keyLtB_of_keyLeB_ne hle hne
  constructor
  · rw [hmap]
    exact hlt
  · intro k
    rw [hmap]
    unfold trendKeys
    rw [List.mem_insertionSort, List.mem_dedup]

/-- C9: on the spec's three-record example with the stated filter, all three
rows pass, the count KPI is 3, the mean ESG is 190/3 and is displayed as
"63.3", top-1 by ESG is Beta, and the trend rows are (2020, EU, 80),
(2020, NA, 50), (2021, NA, 60) in that order. -/
theorem worked_example :
    dfFiltered exBase exState = exBase ∧
    (filteredView exBase exState).length = 3 ∧
    avg_esg (filteredView exBase exState) = PFloat.finite (190 / 3) ∧
    esgValueShown (filteredView exBase exState) = "63.3" ∧
    nlargest 1 (fun r => PFloat.finite r.esg) (filteredView exBase exState)
      = [addIntensity beta2020] ∧
    (df_trend (filteredView exBase exState)).map (fun a => (a.ano, a.regiao, a.esgMean))
      = [(2020, "EU", PFloat.finite 80), (2020, "NA", PFloat.finite 50),
         (2021, "NA", PFloat.finite 60)] := by
  have hesg : (filteredView exBase exState).map (·.esg) = [50, 80, 60] := rfl
  have hm : avg_esg (filteredView exBase exState) = PFloat.finite (190 / 3) := by
    rw [avg_esg, hesg]
    norm_num [PFloat.meanQ]
  have hr : round (10 * ((190 : ℚ) / 3)) = 633 := by
    norm_num [round_eq]
  have hfmt : esgValueShown (filteredView exBase exState) = "63.3" := by
    show fmtF1 (avg_esg (filteredView exBase exState)) = "63.3"
    rw [hm]
    show fmtQ1 (190 / 3) = "63.3"
    simp only [fmtQ1, hr]
    decide
  have hkeys : trendKeys (filteredView exBase exState)
      = [(2020, "EU"), (2020, "NA"), (2021, "NA")] := rfl
  have g1 : groupRows (filteredView exBase exState) (2020, "EU")
      = [addIntensity beta2020] := rfl
  have g2 : groupRows (filteredView exBase exState) (2020, "NA")
      = [addIntensity acme2020] := rfl
  have g3 : groupRows (filteredView exBase exState) (2021, "NA")
      = [addIntensity acme2021] := rfl
  have htrend : (df_trend (filteredView exBase exState)).map
        (fun a => (a.ano, a.regiao, a.esgMean))
      = [(2020, "EU", PFloat.finite 80), (2020, "NA", PFloat.finite 50),
         (2021, "NA", PFloat.finite 60)] := by
    rw [df_trend, hkeys]
    simp only [List.map_cons, List.map_nil, aggOf, g1, g2, g3]
    norm_num [PFloat.meanQ, addIntensity, beta2020, acme2020, acme2021]
  exact ⟨rfl, rfl, hm, hfmt, rfl, htrend⟩

/-- C2: on any load failure load_data does return the empty table and a
user-visible message; but the baseline initialization of lines 47-53 then
indexes df['Ano'] on the column-less empty frame, raising an uncaught
KeyError, so the session does not continue gracefully. -/
theorem load_failure_behavior (e : String) :
    (load_data (Except.error e)).1.rows = [] ∧
    (load_data (Except.error e)).1.hasEsgSchema = false ∧
    (load_data (Except.error e)).2 = some ("Erro ao carregar dados: " ++ e) ∧
    initResetDict (load_data (Except.error e)).1 = Except.error "KeyError: Ano" :=
  ⟨rfl, rfl, rfl, rfl⟩

theorem applyUpdates_invariant (upds : List (FKey × PyObj)) :
    ∀ s : Session,
    (applyUpdates s upds).resetYear = s.resetYear ∧
    (applyUpdates s upds).resetRegions = s.resetRegions ∧
    (applyUpdates s upds).resetRev = s.resetRev ∧
    (applyUpdates s upds).resetMargin = s.resetMargin ∧
    ∀ a : ℕ, a < s.heap.length →
      (applyUpdates s upds).heap.get? a = s.heap.get? a := by
  induction upds with
  | nil => exact fun s => ⟨rfl, rfl, rfl, rfl, fun a _ => rfl⟩
  | cons u rest ih =>
    intro s
    obtain ⟨h1, h2, h3, h4, h5⟩ := ih (updateLive s u.1 u.2)
    have hR : (updateLive s u.1 u.2).resetYear = s.resetYear ∧
        (updateLive s u.1 u.2).resetRegions = s.resetRegions ∧
        (updateLive s u.1 u.2).resetRev = s.resetRev ∧
        (updateLive s u.1 u.2).resetMargin = s.resetMargin := by
      rcases u with ⟨k, v⟩
      cases k <;> exact ⟨rfl, rfl, rfl, rfl⟩
    have hH : ∀ a : ℕ, a < s.heap.length →
        (updateLive s u.1 u.2).heap.get? a = s.heap.get? a := by
      rcases u with ⟨k, v⟩
      cases k <;> (intro a ha; exact List.get?_append ha)
    have hL : s.heap.length ≤ (updateLive s u.1 u.2).heap.length := by
      rcases u with ⟨k, v⟩
      cases k <;> simp [updateLive]
    refine ⟨h1.trans hR.1, h2.trans hR.2.1, h3.trans hR.2.2.1, h4.trans hR.2.2.2, ?_⟩
    intro a ha
    exact (h5 a (lt_of_lt_of_le ha hL)).trans (hH a ha)

/-- C5 (amended): pressing reset after any sequence of widget updates makes
every live key read back exactly the baseline values captured at
initialization; however the reset loop copies references, so after a reset
the live regions key holds the very address stored in the baseline dict. -/
theorem reset_restores_baseline (yr : ℤ × ℤ) (regs : List String)
    (rev mar : ℚ × ℚ) (upds : List (FKey × PyObj)) :
    readObj (pressReset (applyUpdates (initSession yr regs rev mar) upds))
        (pressReset (applyUpdates (initSession yr regs rev mar) upds)).liveYear
      = some (PyObj.intPair yr.1 yr.2) ∧
    readObj (pressReset (applyUpdates (initSession yr regs rev mar) upds))
        (pressReset (applyUpdates (initSession yr regs rev mar) upds)).liveRegions
      = some (PyObj.strList regs) ∧
    readObj (pressReset (applyUpdates (initSession yr regs rev mar) upds))
        (pressReset (applyUpdates (initSession yr regs rev mar) upds)).liveRev
      = some (PyObj.ratPair rev.1 rev.2) ∧
    readObj (pressReset (applyUpdates (initSession yr regs rev mar) upds))
        (pressReset (applyUpdates (initSession yr regs rev mar) upds)).liveMargin
      = some (PyObj.ratPair mar.1 mar.2) ∧
    (pressReset (applyUpdates (initSession yr regs rev mar) upds)).liveRegions
      = (pressReset (applyUpdates (initSession yr regs rev mar) upds)).resetRegions := by
  obtain ⟨h1, h2, h3, h4, h5⟩ :=
    applyUpdates_invariant upds (initSession yr regs rev mar)
  refine ⟨?_, ?_, ?_, ?_, rfl⟩
  · show (applyUpdates (initSession yr regs rev mar) upds).heap.get?
        (applyUpdates (initSession yr regs rev mar) upds).resetYear
      = some (PyObj.intPair yr.1 yr.2)
    rw [h1]
    exact (h5 0 (by simp [initSession])).trans rfl
  · show (applyUpdates (initSession yr regs rev mar) upds).heap.get?
        (applyUpdates (initSession yr regs rev mar) upds).resetRegions
      = some (PyObj.strList regs)
    rw [h2]
    exact (h5 1 (by simp [initSession])).trans rfl
  · show (applyUpdates (initSession yr regs rev mar) upds).heap.get?
        (applyUpdates (initSession yr regs rev mar) upds).resetRev
      = some (PyObj.ratPair rev.1 rev.2)
    rw [h3]
    exact (h5 2 (by simp [initSession])).trans rfl
  · show (applyUpdates (initSession yr regs rev mar) upds).heap.get?
        (applyUpdates (initSession yr regs rev mar) upds).resetMargin
      = some (PyObj.ratPair mar.1 mar.2)
    rw [h4]
    exact (h5 3 (by simp [initSession])).trans rfl

/-- C5 is false as stated: the reset button assigns the baseline objects by
reference, not as fresh copies - after a reset the live regions key and the
baseline dict hold the same heap address, and an in-place append through the
live binding changes the value read back through the baseline. -/
theorem reset_aliases_baseline :
    (pressReset (initSession (2020, 2024) ["EU", "NA"] (0, 100) (0, 10))).liveRegions
      = (pressReset (initSession (2020, 2024) ["EU", "NA"] (0, 100) (0, 10))).resetRegions ∧
    readObj (initSession (2020, 2024) ["EU", "NA"] (0, 100) (0, 10))
        (initSession (2020, 2024) ["EU", "NA"] (0, 100) (0, 10)).resetRegions
      = some (PyObj.strList ["EU", "NA"]) ∧
    readObj
        (appendLiveRegions
          (pressReset (initSession (2020, 2024) ["EU", "NA"] (0, 100) (0, 10))) "X")
        (appendLiveRegions
          (pressReset (initSession (2020, 2024) ["EU", "NA"] (0, 100) (0, 10))) "X").resetRegions
      = some (PyObj.strList ["EU", "NA", "X"]) :=
  ⟨rfl, rfl, rfl⟩
